import Mathlib

/-!
# Verification of the Simple Platform TypeScript SDK execution bridge

This development shallowly embeds the cross-boundary execution bridge of the
`simple-platform/simple-sdks` TypeScript SDK and proves properties of it:

* `Mem` embeds the WebAssembly memory-management module
  (`allocate`, `stringToPtr`, `readBufferSlice`) against a faithful arena
  model that records every foreign call as an event.
* `Exec` embeds the `execute` host-call state machine (both the
  synchronous Elixir path and the Asyncify-aware browser path) against a
  host oracle that can inject a fault at every foreign-boundary step; the
  embedding returns the trace of foreign calls together with the outcome.
* `Chan` embeds the generated script-worker entry point (the delegation
  channel slot created around the dynamic import of the user application).
* `Driver` embeds the entry-point driver `handle` / `returnError` /
  `returnSuccess` completion signalling.
-/

namespace SimpleSDK

/-! ## UTF-8 encoding (the `TextEncoder` used by the memory module) -/

/-- Standard UTF-8 encoding of a single character (code point), as performed
by `TextEncoder.encode`: 1 byte below U+0080, 2 bytes below U+0800, 3 bytes
below U+10000, 4 bytes otherwise. -/
def utf8EncodeChar (c : Char) : List Nat :=
  let n := c.toNat
  if n < 0x80 then [n]
  else if n < 0x800 then
    [0xC0 ||| (n >>> 6), 0x80 ||| (n &&& 0x3F)]
  else if n < 0x10000 then
    [0xE0 ||| (n >>> 12), 0x80 ||| ((n >>> 6) &&& 0x3F), 0x80 ||| (n &&& 0x3F)]
  else
    [0xF0 ||| (n >>> 18), 0x80 ||| ((n >>> 12) &&& 0x3F),
     0x80 ||| ((n >>> 6) &&& 0x3F), 0x80 ||| (n &&& 0x3F)]

/-- UTF-8 byte sequence of a string (`encoder.encode(str)` in the source). -/
def utf8Bytes (s : String) : List Nat :=
  (s.data.map utf8EncodeChar).flatten

/-! ## `Mem`: the WebAssembly memory-management module

Embeds `src/unnamed/part_005` (`internal/memory`) against a faithful arena:
the foreign `__wasm` layer is modelled as a store mapping pointers to the
text written there, `__wasm.alloc` hands out fresh positive offsets, and
`__wasm.read_string` succeeds exactly when the requested pointer holds a
stored text whose UTF-8 byte length matches the requested length (this is
the "arena faithfully stores what was written" assumption; any other read
is modelled as the foreign fault the source's `catch` block handles).
Every foreign call is recorded as a `MemEv` event. -/

namespace Mem

/-- One foreign call at the `__wasm` arena boundary. -/
inductive MemEv where
  /-- a call `__wasm.alloc(size)` that returned offset `ret` -/
  | allocEv (size ret : Nat)
  /-- a call `__wasm.write_string(ptr, s)` -/
  | writeEv (ptr : Nat) (s : String)
  /-- a call `__wasm.read_string(ptr, len)` -/
  | readEv (ptr len : Nat)
  /-- a call `__wasm.dealloc(ptr, size)` -/
  | deallocEv (ptr size : Nat)
  deriving DecidableEq, Repr

/-- The foreign linear-memory arena: a fresh-pointer counter and the store of
written texts.  `nextPtr` is kept positive so live allocations have positive
offsets, matching a real allocator that reserves offset 0. -/
structure Arena where
  nextPtr : Nat
  mem : List (Nat × String)
  deriving DecidableEq, Repr

/-- Foreign `__wasm.alloc(size)`: returns a fresh offset. -/
def wasmAlloc (a : Arena) (size : Nat) : Nat × Arena × List MemEv :=
  (a.nextPtr, ⟨a.nextPtr + size + 1, a.mem⟩, [.allocEv size a.nextPtr])

/-- Foreign `__wasm.write_string(ptr, s)`: stores `s` at `ptr`. -/
def wasmWriteString (a : Arena) (ptr : Nat) (s : String) : Arena × List MemEv :=
  (⟨a.nextPtr, (ptr, s) :: a.mem⟩, [.writeEv ptr s])

/-- Lookup of the text stored at a pointer (most recent write wins). -/
def lookupMem : List (Nat × String) → Nat → Option String
  | [], _ => none
  | (p, s) :: rest, q => if p = q then some s else lookupMem rest q

/-- Foreign `__wasm.read_string(ptr, len)`: under the faithful-arena
assumption it returns the stored text when `len` bytes of valid UTF-8 are
there; any other access is the foreign fault that the adapter's `catch`
absorbs. -/
def wasmReadString (a : Arena) (ptr len : Nat) : Except Unit String :=
  match lookupMem a.mem ptr with
  | some s => if (utf8Bytes s).length = len then .ok s else .error ()
  | none => .error ()

/-- Embeds `stringToPtr` (part_005 lines 157-168): an empty string takes the
`[allocate(0), 0]` shortcut; otherwise the UTF-8 byte length is computed,
that many bytes are allocated and `write_string` is issued.  Returns the
`[ptr, byte_length]` pair, the new arena, and the foreign-call trace. -/
def stringToPtr (a : Arena) (str : String) : (Nat × Nat) × Arena × List MemEv :=
  if str.length = 0 then
    let r := wasmAlloc a 0
    ((r.1, 0), r.2.1, r.2.2)
  else
    let bytes := utf8Bytes str
    let r := wasmAlloc a bytes.length
    let w := wasmWriteString r.2.1 r.1 str
    ((r.1, bytes.length), w.1, r.2.2 ++ w.2)

/-- Embeds `readBufferSlice` (part_005 lines 92-105): length zero returns an
empty byte array with no foreign call; otherwise `read_string` is issued and
its result re-encoded to UTF-8 bytes, and a foreign fault is caught, logged
(`console.error`, second component) and downgraded to an empty byte array.
Returns (bytes, log lines, foreign-call trace). -/
def readBufferSlice (a : Arena) (ptr len : Nat) :
    List Nat × List String × List MemEv :=
  if len = 0 then ([], [], [])
  else
    match wasmReadString a ptr len with
    | .ok s => (utf8Bytes s, [], [.readEv ptr len])
    | .error _ => ([], ["Memory read failed"], [.readEv ptr len])

end Mem

/-! ## `Exec`: the `execute` host-call state machine

Embeds `execute` from `src/unnamed/part_001` (both build-time variants: the
Asyncify-aware browser path and the synchronous Elixir path).  The foreign
boundary is modelled by a `HostEnv` oracle that fixes the offset returned by
each `__wasm.alloc` call and decides, for every foreign-boundary step, whether
it faults (throws).  The embedding returns the full trace of foreign calls
(`Ev` events) together with the outcome: either the returned
`SimpleResponse`, or the fault that propagated out of `execute`.  The
`try`/`finally` blocks of the source are embedded path-by-path: on every exit
path the events of the corresponding `finally` blocks are appended, innermost
first, exactly as the source releases buffers.  `JSON.stringify` of the
params and context is not modelled; `execute` receives the serialized texts
as inputs. -/

namespace Exec

/-- One foreign call made by `execute`. -/
inductive Ev where
  /-- `__wasm.alloc(size)` returning offset `ret` -/
  | alloc (size ret : Nat)
  /-- `__wasm.write_string(ptr, _)` -/
  | writeStr (ptr : Nat)
  /-- `__host.call(...)`, the blocking host-call primitive -/
  | hostCall
  /-- `asyncify_stop_rewind()` -/
  | stopRewind
  /-- `__host.getExecutionResultSize()` -/
  | getSize
  /-- `__host.getExecutionResult(ptr)` -/
  | getResult (ptr : Nat)
  /-- `__wasm.read_string(ptr, len)` (inside `readBufferSlice`) -/
  | readStr (ptr len : Nat)
  /-- `__wasm.clear_response_buffer()` -/
  | clearResponse
  /-- `__wasm.dealloc(ptr, len)` (a `deallocate` call) -/
  | dealloc (ptr len : Nat)
  deriving DecidableEq, Repr

/-- A fault thrown at the foreign boundary. -/
inductive Fault where
  | boundary
  deriving DecidableEq, Repr

/-- `SimpleError` from `types.ts` (the optional `reasons` field is not
used by `execute` and is omitted). -/
structure SimpleError where
  message : String
  deriving DecidableEq, Repr

/-- `SimpleResponse` from `types.ts`: `ok` flag, optional `data`,
optional `error`. -/
structure SimpleResponse (T : Type) where
  ok : Bool
  data : Option T
  error : Option SimpleError
  deriving DecidableEq, Repr

/-- The host/substrate oracle for one entry of `execute`: the offsets the
arena returns for the four possible allocations (action name, params,
context, sync-path result buffer), fault switches for every fallible foreign
step, the values the host reports, and the behavior of `JSON.parse` on the
decoded result text.  `state2` is whether `asyncify_get_state()` reports 2
(`Rewinding`) on this entry. -/
structure HostEnv (T : Type) where
  allocAN : Nat
  writeANFails : Bool
  allocP : Nat
  writePFails : Bool
  allocC : Nat
  writeCFails : Bool
  callFails : Bool
  resultSize : Nat
  sizeFails : Bool
  allocR : Nat
  getResultFails : Bool
  readFails : Bool
  readVal : String
  parse : String → Option (SimpleResponse T)
  state2 : Bool
  respPtr : Nat
  respLen : Nat

/-- Embeds one `stringToPtr` call made by `execute`, against the oracle:
`allocRet` is the offset the arena returns, `writeFails` whether the
`write_string` call throws.  Mirrors part_005 lines 157-168: empty strings
allocate zero bytes and skip the write; otherwise allocate then write. -/
def stringToPtrE (allocRet : Nat) (writeFails : Bool) (s : String) :
    List Ev × Except Fault (Nat × Nat) :=
  if s.length = 0 then
    ([.alloc 0 allocRet], .ok (allocRet, 0))
  else
    let len := (utf8Bytes s).length
    if writeFails then
      ([.alloc len allocRet, .writeStr allocRet], .error .boundary)
    else
      ([.alloc len allocRet, .writeStr allocRet], .ok (allocRet, len))

/-- Embeds one `readBufferSlice` call made by `execute` against the oracle;
the internal `catch` downgrades a faulting `read_string` to an empty result,
so this step never propagates a fault.  The byte/decode round trip
(`encoder.encode` then `decoder.decode`) is the identity, so the result is
returned directly as the decoded text. -/
def readBufferSliceE (ptr len : Nat) (readFails : Bool) (readVal : String) :
    List Ev × String :=
  if len = 0 then ([], "")
  else if readFails then ([.readStr ptr len], "")
  else ([.readStr ptr len], readVal)

/-- Embeds one guarded release from a `finally` block:
`if (ptr > 0) deallocate(ptr, len)`. -/
def relIf (p l : Nat) : List Ev :=
  if 0 < p then [Ev.dealloc p l] else []

/-- Embeds the synchronous (Elixir) body of `execute` (part_001 lines
80-113), including its inner `try`/`finally` that releases the result buffer
when `resultPtr > 0`.  Entered after the three parameter buffers exist. -/
def syncBody {T : Type} (env : HostEnv T) :
    List Ev × Except Fault (SimpleResponse T) :=
  if env.callFails then
    ([Ev.hostCall] ++ relIf 0 0, .error .boundary)
  else if env.sizeFails then
    ([Ev.hostCall, Ev.getSize] ++ relIf 0 0, .error .boundary)
  else if env.resultSize = 0 then
    ([Ev.hostCall, Ev.getSize] ++ relIf 0 0,
     .ok ⟨false, none, some ⟨"Host returned an empty result."⟩⟩)
  else
    let resultPtr := env.allocR
    let resultLen := env.resultSize
    if env.getResultFails then
      ([Ev.hostCall, Ev.getSize, Ev.alloc resultLen resultPtr,
        Ev.getResult resultPtr] ++ relIf resultPtr resultLen,
       .error .boundary)
    else
      let r := readBufferSliceE resultPtr resultLen env.readFails env.readVal
      match env.parse r.2 with
      | none =>
          ([Ev.hostCall, Ev.getSize, Ev.alloc resultLen resultPtr,
            Ev.getResult resultPtr] ++ r.1 ++ relIf resultPtr resultLen,
           .error .boundary)
      | some resp =>
          ([Ev.hostCall, Ev.getSize, Ev.alloc resultLen resultPtr,
            Ev.getResult resultPtr] ++ r.1 ++ relIf resultPtr resultLen,
           .ok resp)

/-- The tail of the Asyncify path after the state branch has converged
(part_001 lines 59-71): read the staged response via the pointers from the
plugin, clear the staging slot, parse; the inner `finally` releases the
response buffer when `responsePtr > 0`.  `pre` holds the events of the state
branch that was taken. -/
def asyncReadResult {T : Type} (env : HostEnv T) (pre : List Ev) :
    List Ev × Except Fault (SimpleResponse T) :=
  let responsePtr := env.respPtr
  let responseLen := env.respLen
  let r := readBufferSliceE responsePtr responseLen env.readFails env.readVal
  match env.parse r.2 with
  | none =>
      (pre ++ r.1 ++ [Ev.clearResponse] ++ relIf responsePtr responseLen,
       .error .boundary)
  | some resp =>
      (pre ++ r.1 ++ [Ev.clearResponse] ++ relIf responsePtr responseLen,
       .ok resp)

/-- Embeds the Asyncify-aware (browser) body of `execute` (part_001 lines
38-79): if `asyncify_get_state() === 2` (Rewinding) it only stops the
rewind; otherwise it issues the blocking host call.  Either way it falls
through to the staged-response reading step. -/
def asyncBody {T : Type} (env : HostEnv T) :
    List Ev × Except Fault (SimpleResponse T) :=
  if env.state2 then
    asyncReadResult env [Ev.stopRewind]
  else if env.callFails then
    ([Ev.hostCall] ++ relIf 0 0, .error .boundary)
  else
    asyncReadResult env [Ev.hostCall]

/-- Embeds `execute` (part_001 lines 20-129) for one entry: the three
parameter buffers are acquired via `stringToPtr`; the build-time flag
`asyncBuild` (`__ASYNC_BUILD__`) selects the body; the outer `finally`
releases each parameter buffer whose recorded pointer is positive — a
pointer is recorded only if its `stringToPtr` call returned, otherwise the
variable keeps its initial `0`.  Returns the foreign-call trace and the
outcome. -/
def execute {T : Type} (asyncBuild : Bool) (env : HostEnv T)
    (actionName paramsJSON contextJSON : String) :
    List Ev × Except Fault (SimpleResponse T) :=
  let s1 := stringToPtrE env.allocAN env.writeANFails actionName
  match s1.2 with
  | .error f => (s1.1 ++ (relIf 0 0 ++ relIf 0 0 ++ relIf 0 0), .error f)
  | .ok (anPtr, anLen) =>
    let s2 := stringToPtrE env.allocP env.writePFails paramsJSON
    match s2.2 with
    | .error f =>
        (s1.1 ++ s2.1 ++ (relIf anPtr anLen ++ relIf 0 0 ++ relIf 0 0),
         .error f)
    | .ok (pPtr, pLen) =>
      let s3 := stringToPtrE env.allocC env.writeCFails contextJSON
      match s3.2 with
      | .error f =>
          (s1.1 ++ s2.1 ++ s3.1 ++
            (relIf anPtr anLen ++ relIf pPtr pLen ++ relIf 0 0),
           .error f)
      | .ok (cPtr, cLen) =>
        let body := if asyncBuild then asyncBody env else syncBody env
        (s1.1 ++ s2.1 ++ s3.1 ++ body.1 ++
          (relIf anPtr anLen ++ relIf pPtr pLen ++ relIf cPtr cLen),
         body.2)

/-- Is this event the blocking host-call primitive `__host.call`? -/
def isHostCall : Ev → Bool
  | Ev.hostCall => true
  | _ => false

/-- Number of `__host.call` invocations in a trace. -/
def countHostCalls (t : List Ev) : Nat :=
  (t.filter isHostCall).length

/-- Is this event a `deallocate` of offset `p`? -/
def isDeallocOf (p : Nat) : Ev → Bool
  | Ev.dealloc q _ => q == p
  | _ => false

/-- Number of `deallocate` calls on offset `p` in a trace. -/
def countDeallocPtr (t : List Ev) (p : Nat) : Nat :=
  (t.filter (isDeallocOf p)).length

/-- Is this event an `__wasm.alloc` call? -/
def isAlloc : Ev → Bool
  | Ev.alloc _ _ => true
  | _ => false

/-- Number of `__wasm.alloc` calls in a trace. -/
def countAllocs (t : List Ev) : Nat :=
  (t.filter isAlloc).length

/-- Did this `stringToPtr` call complete (so that its pointer was recorded
by the destructuring assignment in `execute`)?  An empty string always
completes (it never issues the fallible `write_string`); otherwise the call
completes when the write does not fault. -/
def stpOk (writeFails : Bool) (s : String) : Bool :=
  (s.length == 0) || !writeFails

/-- The recorded length of a completed `stringToPtr` call. -/
def stpLen (s : String) : Nat :=
  if s.length = 0 then 0 else (utf8Bytes s).length

/-- The foreign-call events of one `stringToPtr` call (issued whether or not
the write then faults). -/
def stpEvs (allocRet : Nat) (s : String) : List Ev :=
  if s.length = 0 then [Ev.alloc 0 allocRet]
  else [Ev.alloc (utf8Bytes s).length allocRet, Ev.writeStr allocRet]

end Exec

/-! ## `Chan`: the delegation channel and generated entry point

Embeds the dynamic entry point generated by `src/sdks/ts/cli/build.js`
(`entryPointContent`, lines 63-92): it creates a channel object, installs it
at the process-wide location `globalThis.__SIMPLE_PROMISE_CHANNEL__`,
dynamically imports the user application (whose top-level code is expected
to call `simple.Handle` and place a promise on the channel), then checks the
channel; the `finally` deletes the global slot on every exit path.  The user
application run is an oracle: it either throws, or completes having placed
nothing, a promise that resolves to a value, or a promise that rejects. -/

namespace Chan

/-- The process-wide global state relevant to the delegation channel: the
outer `Option` is whether `globalThis.__SIMPLE_PROMISE_CHANNEL__` is
installed; the inner `Option` is the channel's `promise` field (`none` while
it still holds the initial `null`).  The settled value of a placed promise
is recorded directly. -/
structure GlobalSt (T : Type) where
  channelSlot : Option (Option (Except String T))
  deriving Repr

/-- Embeds STEP 1 of the generated entry point:
`globalThis.__SIMPLE_PROMISE_CHANNEL__ = channel` with `channel` the fresh
`{ promise: null }` object.  The assignment never inspects the prior slot
and cannot fail; the `Except` codomain records the possibility of raising,
which this step never uses. -/
def createChannel {T : Type} (_g : GlobalSt T) : Except String (GlobalSt T) :=
  .ok ⟨some none⟩

/-- What the dynamically imported user application does: its top-level code
either throws with a message, or completes having placed nothing on the
channel (it never called `simple.Handle`), or completes having placed a
promise that settles to `placed`. -/
inductive UserRun (T : Type) where
  | throws (msg : String)
  | completes (placed : Option (Except String T))
  deriving Repr

/-- Outcome of one run of the generated entry function: a value (possibly
`undefined`, i.e. `none`) or a raised error. -/
inductive RunOutcome (T : Type) where
  | value (v : Option T)
  | error (msg : String)
  deriving DecidableEq, Repr

/-- Result of a run of the generated entry function: its outcome, the
`console.warn` lines it emitted, and the final global state. -/
structure EntryOut (T : Type) where
  outcome : RunOutcome T
  warnings : List String
  finalGlobal : GlobalSt T
  deriving Repr

/-- Embeds the generated entry function (build.js lines 67-91): install the
fresh channel over whatever `g0` held, import the user application, then
either await the placed promise, or — when `channel.promise` is still null —
warn and return `undefined`; the `finally` deletes the global slot on every
exit path (so `finalGlobal` is always the empty state). -/
def entryPoint {T : Type} (g0 : GlobalSt T) (run : UserRun T) : EntryOut T :=
  match createChannel g0 with
  | .error e => ⟨.error e, [], g0⟩
  | .ok _ =>
    match run with
    | .throws msg => ⟨.error msg, [], ⟨none⟩⟩
    | .completes none =>
        ⟨.value none,
         ["SDK build warning: simple.Handle was not called by the user application."],
         ⟨none⟩⟩
    | .completes (some (Except.ok v)) => ⟨.value (some v), [], ⟨none⟩⟩
    | .completes (some (Except.error m)) => ⟨.error m, [], ⟨none⟩⟩

end Chan

/-! ## `Driver`: the entry-point driver and completion signalling

Embeds `handle`, `returnError` and `returnSuccess` from
`src/unnamed/part_004` on the synchronous (non-worker) path, lines 110-161
and 181-193.  Reading the input, `JSON.parse` and the user handler are
oracles; the embedding returns the list of fire-and-forget host casts
(`executeAsync` calls) the driver emits. -/

namespace Driver

/-- `Logic` from `types.ts`.  Fields are `Option` because the synthesized
fallback context object carries only `execution_id` (the source casts it to
`Context`, so at runtime the other fields are absent). -/
structure Logic where
  execution_env : Option String
  execution_id : Option String
  id : Option String
  trigger_id : Option String
  deriving DecidableEq, Repr

/-- `Tenant` from `types.ts` (fields `Option` for the same reason). -/
structure Tenant where
  host : Option String
  id : Option String
  name : Option String
  deriving DecidableEq, Repr

/-- `User` from `types.ts`. -/
structure User where
  id : Option String
  deriving DecidableEq, Repr

/-- `Context` from `types.ts` (members `Option` because the fallback object
omits `tenant` and `user`). -/
structure Context where
  logic : Option Logic
  tenant : Option Tenant
  user : Option User
  deriving DecidableEq, Repr

/-- `SimpleRequest` from `types.ts`. -/
structure SimpleRequest where
  context : Context
  data : Option String
  headers : List (String × String)
  deriving DecidableEq, Repr

/-- The response object built by `returnError` / `returnSuccess`:
`(data, errors, ok)`. -/
structure DoneResponse (T : Type) where
  data : Option T
  errors : List String
  ok : Bool
  deriving DecidableEq, Repr

/-- One fire-and-forget host cast (`host.executeAsync(name, response,
context)`). -/
structure CastEv (T : Type) where
  actionName : String
  response : DoneResponse T
  context : Context
  deriving DecidableEq, Repr

/-- The synthesized fallback context of `returnError`:
`{ logic: { execution_id: 'unknown' } } as Context`. -/
def fallbackContext : Context :=
  ⟨some ⟨none, some "unknown", none, none⟩, none, none⟩

/-- Embeds `returnError` (part_004 lines 181-187): builds the failure
response, substitutes the fallback context when none is available, and
emits the `__done__` cast. -/
def returnError {T : Type} (message : String) (context : Option Context) :
    CastEv T :=
  ⟨"__done__", ⟨none, [message], false⟩, context.getD fallbackContext⟩

/-- Embeds `returnSuccess` (part_004 lines 189-193). -/
def returnSuccess {T : Type} (data : T) (context : Context) : CastEv T :=
  ⟨"__done__", ⟨some data, [], true⟩, context⟩

/-- Embeds the non-worker path of `handle` (part_004 lines 110-161,
synchronous build): `inputText` is what `readInputFromHost` returned (empty
when the host provided no payload), `parse` models `JSON.parse` on it
(`.error` carries the thrown message), and `run` models awaiting the user
handler on the parsed request (`.error` carries the thrown message).  The
`catch` block reaches `returnError` with `context` still `undefined` exactly
when the failure happened before `simpleReq.context` was extracted. -/
def handle {T : Type} (inputText : String)
    (parse : String → Except String SimpleRequest)
    (run : SimpleRequest → Except String T) : List (CastEv T) :=
  if inputText = "" then
    [returnError "no input payload provided by the host environment" none]
  else
    match parse inputText with
    | .error msg => [returnError msg none]
    | .ok simpleReq =>
      match run simpleReq with
      | .ok result => [returnSuccess result simpleReq.context]
      | .error msg => [returnError msg (some simpleReq.context)]

end Driver

/-! ## Helper lemmas -/

lemma utf8Bytes_of_length_zero {s : String} (h : s.length = 0) :
    utf8Bytes s = [] := by
  have hd : s.data = [] := List.eq_nil_of_length_eq_zero h
  simp [utf8Bytes, hd]

/-! ## Claims about the memory module -/

/-- C4: for every string `t` (including the empty string and strings with
multi-byte UTF-8 sequences), reading back the buffer produced by
`stringToPtr(t)` via `readBufferSlice` yields exactly the UTF-8 bytes of
`t`, given that the arena faithfully stores what was written. -/
theorem mem_roundtrip (a : Mem.Arena) (t : String) :
    (Mem.readBufferSlice (Mem.stringToPtr a t).2.1 (Mem.stringToPtr a t).1.1
      (Mem.stringToPtr a t).1.2).1 = utf8Bytes t := by
  by_cases h : t.length = 0
  · simp [Mem.stringToPtr, h, Mem.wasmAlloc, Mem.readBufferSlice,
      utf8Bytes_of_length_zero h]
  · by_cases h2 : (utf8Bytes t).length = 0
    · simp [Mem.stringToPtr, h, Mem.wasmAlloc, Mem.wasmWriteString,
        Mem.readBufferSlice, h2, List.length_eq_zero.mp h2]
    · simp [Mem.stringToPtr, h, Mem.wasmAlloc, Mem.wasmWriteString,
        Mem.readBufferSlice, h2, Mem.wasmReadString, Mem.lookupMem]

/-- C7 counterexample: converting the empty string to a handle does issue a
foreign arena call — `stringToPtr` on the empty string calls `allocate(0)`,
which issues `__wasm.alloc(0)`; its foreign-call trace is exactly one alloc
event, in particular not empty. -/
theorem mem_empty_string_allocates :
    (Mem.stringToPtr ⟨1, []⟩ "").2.2 = [Mem.MemEv.allocEv 0 1] ∧
    (Mem.stringToPtr ⟨1, []⟩ "").2.2 ≠ [] := by
  refine ⟨rfl, ?_⟩
  decide

/-- C7 (amended): an allocation request of size zero is legal — converting
the empty string yields a handle with length 0, issues exactly one foreign
call, namely `alloc(0)`, and issues no foreign `write_string` or
`read_string` call. -/
theorem mem_empty_string_handle (a : Mem.Arena) :
    (Mem.stringToPtr a "").1.2 = 0 ∧
    (Mem.stringToPtr a "").2.2 = [Mem.MemEv.allocEv 0 a.nextPtr] :=
  ⟨rfl, rfl⟩

/-- C8: a read that fails at the foreign arena boundary never raises past
the buffer adapter — for every pointer and nonzero length, if the underlying
foreign `read_string` call throws, `readBufferSlice` catches the fault, logs
it, and returns an empty byte sequence instead of propagating the
exception. -/
theorem mem_read_fault_absorbed (a : Mem.Arena) (ptr len : Nat)
    (hlen : len ≠ 0) (hfail : Mem.wasmReadString a ptr len = .error ()) :
    Mem.readBufferSlice a ptr len =
      ([], ["Memory read failed"], [Mem.MemEv.readEv ptr len]) := by
  simp [Mem.readBufferSlice, hlen, hfail]

/-- Witness for C8 at a concrete input: reading 3 bytes at offset 5 of an
empty arena faults at the foreign boundary, and `readBufferSlice` absorbs
the fault. -/
theorem mem_read_fault_absorbed_witness :
    Mem.readBufferSlice ⟨1, []⟩ 5 3 =
      ([], ["Memory read failed"], [Mem.MemEv.readEv 5 3]) :=
  mem_read_fault_absorbed ⟨1, []⟩ 5 3 (by decide) (by rfl)

/-! ## Helper lemmas about `Exec` traces -/

namespace Exec

@[simp] lemma countHostCalls_nil : countHostCalls [] = 0 := rfl

@[simp] lemma countHostCalls_append (s t : List Ev) :
    countHostCalls (s ++ t) = countHostCalls s + countHostCalls t := by
  simp [countHostCalls]

@[simp] lemma countHostCalls_cons (e : Ev) (t : List Ev) :
    countHostCalls (e :: t) =
      (if isHostCall e then 1 else 0) + countHostCalls t := by
  by_cases h : isHostCall e <;> simp [countHostCalls, h] <;> omega

@[simp] lemma countDeallocPtr_nil (p : Nat) : countDeallocPtr [] p = 0 := rfl

@[simp] lemma countDeallocPtr_append (s t : List Ev) (p : Nat) :
    countDeallocPtr (s ++ t) p = countDeallocPtr s p + countDeallocPtr t p := by
  simp [countDeallocPtr]

@[simp] lemma countDeallocPtr_cons (e : Ev) (t : List Ev) (p : Nat) :
    countDeallocPtr (e :: t) p =
      (if isDeallocOf p e then 1 else 0) + countDeallocPtr t p := by
  by_cases h : isDeallocOf p e <;> simp [countDeallocPtr, h] <;> omega

@[simp] lemma countAllocs_nil : countAllocs [] = 0 := rfl

@[simp] lemma countAllocs_append (s t : List Ev) :
    countAllocs (s ++ t) = countAllocs s + countAllocs t := by
  simp [countAllocs]

@[simp] lemma countAllocs_cons (e : Ev) (t : List Ev) :
    countAllocs (e :: t) = (if isAlloc e then 1 else 0) + countAllocs t := by
  by_cases h : isAlloc e <;> simp [countAllocs, h] <;> omega

lemma stringToPtrE_eq (a : Nat) (wf : Bool) (s : String) :
    stringToPtrE a wf s =
      (stpEvs a s,
       if stpOk wf s then Except.ok (a, stpLen s)
       else Except.error Fault.boundary) := by
  by_cases h : s.length = 0 <;> cases wf <;>
    simp [stringToPtrE, stpEvs, stpOk, stpLen, h]

@[simp] lemma stpOk_false (s : String) : stpOk false s = true := by
  simp [stpOk]

lemma readBufferSliceE_evs (p l : Nat) (rf : Bool) (rv : String) :
    (readBufferSliceE p l rf rv).1 =
      if l = 0 then [] else [Ev.readStr p l] := by
  by_cases h : l = 0 <;> cases rf <;> simp [readBufferSliceE, h]

@[simp] lemma countHostCalls_rbsE (p l : Nat) (rf : Bool) (rv : String) :
    countHostCalls (readBufferSliceE p l rf rv).1 = 0 := by
  rw [readBufferSliceE_evs]
  by_cases h : l = 0 <;> simp [h, isHostCall]

@[simp] lemma countDeallocPtr_rbsE (p l : Nat) (rf : Bool) (rv : String)
    (q : Nat) : countDeallocPtr (readBufferSliceE p l rf rv).1 q = 0 := by
  rw [readBufferSliceE_evs]
  by_cases h : l = 0 <;> simp [h, isDeallocOf]

@[simp] lemma countAllocs_rbsE (p l : Nat) (rf : Bool) (rv : String) :
    countAllocs (readBufferSliceE p l rf rv).1 = 0 := by
  rw [readBufferSliceE_evs]
  by_cases h : l = 0 <;> simp [h, isAlloc]

@[simp] lemma countHostCalls_relIf (p l : Nat) :
    countHostCalls (relIf p l) = 0 := by
  by_cases h : 0 < p <;> simp [relIf, h, isHostCall]

lemma countDeallocPtr_relIf (q l p : Nat) :
    countDeallocPtr (relIf q l) p = if 0 < q ∧ q = p then 1 else 0 := by
  by_cases h : 0 < q
  · by_cases h2 : q = p
    · subst h2
      simp [relIf, h, countDeallocPtr, isDeallocOf]
    · simp [relIf, h, h2, countDeallocPtr, isDeallocOf]
  · simp [relIf, h]

@[simp] lemma countAllocs_relIf (p l : Nat) :
    countAllocs (relIf p l) = 0 := by
  by_cases h : 0 < p <;> simp [relIf, h, isAlloc]

@[simp] lemma countHostCalls_stpEvs (a : Nat) (s : String) :
    countHostCalls (stpEvs a s) = 0 := by
  by_cases h : s.length = 0 <;> simp [stpEvs, h, isHostCall]

@[simp] lemma countDeallocPtr_stpEvs (a : Nat) (s : String) (p : Nat) :
    countDeallocPtr (stpEvs a s) p = 0 := by
  by_cases h : s.length = 0 <;> simp [stpEvs, h, isDeallocOf]

@[simp] lemma countAllocs_stpEvs (a : Nat) (s : String) :
    countAllocs (stpEvs a s) = 1 := by
  by_cases h : s.length = 0 <;> simp [stpEvs, h, isAlloc]

lemma asyncReadResult_evs {T : Type} (env : HostEnv T) (pre : List Ev) :
    (asyncReadResult env pre).1 =
      pre ++ (readBufferSliceE env.respPtr env.respLen env.readFails
        env.readVal).1 ++ [Ev.clearResponse] ++ relIf env.respPtr env.respLen := by
  unfold asyncReadResult
  rcases hp : env.parse (readBufferSliceE env.respPtr env.respLen env.readFails
      env.readVal).2 with _ | r <;> simp [hp]

lemma countHostCalls_asyncBody {T : Type} (env : HostEnv T) :
    countHostCalls (asyncBody env).1 = if env.state2 then 0 else 1 := by
  unfold asyncBody
  by_cases hs : env.state2
  · rw [if_pos hs, asyncReadResult_evs]
    simp [hs, isHostCall]
  · by_cases hc : env.callFails
    · simp [hs, hc, isHostCall]
    · rw [if_neg hs, if_neg hc, asyncReadResult_evs]
      simp [hs, isHostCall]

lemma stopRewind_mem_asyncBody {T : Type} (env : HostEnv T)
    (h : env.state2 = true) : Ev.stopRewind ∈ (asyncBody env).1 := by
  unfold asyncBody
  rw [if_pos h, asyncReadResult_evs]
  simp

lemma countHostCalls_syncBody {T : Type} (env : HostEnv T) :
    countHostCalls (syncBody env).1 = 1 := by
  unfold syncBody
  by_cases hc : env.callFails
  · simp [hc, isHostCall]
  · by_cases hsz : env.sizeFails
    · simp [hc, hsz, isHostCall]
    · by_cases hz : env.resultSize = 0
      · simp [hc, hsz, hz, isHostCall]
      · by_cases hg : env.getResultFails
        · simp [hc, hsz, hz, hg, isHostCall]
        · rcases hp : env.parse (readBufferSliceE env.allocR env.resultSize
              env.readFails env.readVal).2 with _ | r <;>
            simp [hc, hsz, hz, hg, hp, isHostCall]

lemma countDeallocPtr_syncBody {T : Type} (env : HostEnv T) (p : Nat)
    (h : p ≠ env.allocR) : countDeallocPtr (syncBody env).1 p = 0 := by
  have h' : env.allocR ≠ p := Ne.symm h
  unfold syncBody
  by_cases hc : env.callFails
  · simp [hc, relIf, isDeallocOf]
  · by_cases hsz : env.sizeFails
    · simp [hc, hsz, relIf, isDeallocOf]
    · by_cases hz : env.resultSize = 0
      · simp [hc, hsz, hz, relIf, isDeallocOf]
      · by_cases hg : env.getResultFails
        · simp [hc, hsz, hz, hg, isDeallocOf, countDeallocPtr_relIf, h']
        · rcases hp : env.parse (readBufferSliceE env.allocR env.resultSize
              env.readFails env.readVal).2 with _ | r <;>
            simp [hc, hsz, hz, hg, hp, isDeallocOf, countDeallocPtr_relIf, h']

lemma countDeallocPtr_asyncBody {T : Type} (env : HostEnv T) (p : Nat)
    (h : p ≠ env.respPtr) : countDeallocPtr (asyncBody env).1 p = 0 := by
  have h' : env.respPtr ≠ p := Ne.symm h
  unfold asyncBody
  by_cases hs : env.state2
  · rw [if_pos hs, asyncReadResult_evs]
    simp [isDeallocOf, countDeallocPtr_relIf, h']
  · by_cases hc : env.callFails
    · simp [hs, hc, relIf, isDeallocOf]
    · rw [if_neg hs, if_neg hc, asyncReadResult_evs]
      simp [isDeallocOf, countDeallocPtr_relIf, h']

lemma countDeallocPtr_bodyIf {T : Type} (ab : Bool) (env : HostEnv T)
    (p : Nat) (h1 : p ≠ env.allocR) (h2 : p ≠ env.respPtr) :
    countDeallocPtr (if ab then asyncBody env else syncBody env).1 p = 0 := by
  cases ab
  · simpa using countDeallocPtr_syncBody env p h1
  · simpa using countDeallocPtr_asyncBody env p h2

lemma dealloc_not_mem_stpEvs {p l a : Nat} {s : String} :
    Ev.dealloc p l ∉ stpEvs a s := by
  by_cases h : s.length = 0 <;> simp [stpEvs, h]

lemma dealloc_mem_relIf {p l q m : Nat}
    (hm : Ev.dealloc p l ∈ relIf q m) : 0 < p := by
  by_cases h : 0 < q
  · simp [relIf, h] at hm
    omega
  · simp [relIf, h] at hm

lemma dealloc_not_mem_rbsE {p l : Nat} {q m : Nat} {rf : Bool}
    {rv : String} : Ev.dealloc p l ∉ (readBufferSliceE q m rf rv).1 := by
  rw [readBufferSliceE_evs]
  by_cases h : m = 0 <;> simp [h]

lemma dealloc_mem_syncBody {T : Type} {env : HostEnv T} {p l : Nat}
    (hm : Ev.dealloc p l ∈ (syncBody env).1) : 0 < p := by
  unfold syncBody at hm
  by_cases hc : env.callFails
  · simp [hc, relIf] at hm
  · by_cases hsz : env.sizeFails
    · simp [hc, hsz, relIf] at hm
    · by_cases hz : env.resultSize = 0
      · simp [hc, hsz, hz, relIf] at hm
      · by_cases hg : env.getResultFails
        · simp [hc, hsz, hz, hg] at hm
          exact dealloc_mem_relIf hm
        · rcases hp : env.parse (readBufferSliceE env.allocR env.resultSize
              env.readFails env.readVal).2 with _ | r <;>
            simp [hc, hsz, hz, hg, hp] at hm <;>
            rcases hm with hm | hm
          · exact absurd hm dealloc_not_mem_rbsE
          · exact dealloc_mem_relIf hm
          · exact absurd hm dealloc_not_mem_rbsE
          · exact dealloc_mem_relIf hm

lemma dealloc_mem_asyncBody {T : Type} {env : HostEnv T} {p l : Nat}
    (hm : Ev.dealloc p l ∈ (asyncBody env).1) : 0 < p := by
  unfold asyncBody at hm
  by_cases hs : env.state2
  · rw [if_pos hs, asyncReadResult_evs] at hm
    simp at hm
    rcases hm with hm | hm
    · exact absurd hm dealloc_not_mem_rbsE
    · exact dealloc_mem_relIf hm
  · by_cases hc : env.callFails
    · simp [hs, hc, relIf] at hm
    · rw [if_neg hs, if_neg hc, asyncReadResult_evs] at hm
      simp at hm
      rcases hm with hm | hm
      · exact absurd hm dealloc_not_mem_rbsE
      · exact dealloc_mem_relIf hm

lemma dealloc_mem_bodyIf {T : Type} {ab : Bool} {env : HostEnv T}
    {p l : Nat}
    (hm : Ev.dealloc p l ∈ (if ab then asyncBody env else syncBody env).1) :
    0 < p := by
  cases ab
  · exact dealloc_mem_syncBody (by simpa using hm)
  · exact dealloc_mem_asyncBody (by simpa using hm)

@[simp] lemma relIf_zero (l : Nat) : relIf 0 l = [] := rfl

lemma execute_eq_ok {T : Type} (ab : Bool) (env : HostEnv T)
    (an pj cj : String)
    (h1 : stpOk env.writeANFails an = true)
    (h2 : stpOk env.writePFails pj = true)
    (h3 : stpOk env.writeCFails cj = true) :
    execute ab env an pj cj =
      (stpEvs env.allocAN an ++ stpEvs env.allocP pj ++ stpEvs env.allocC cj ++
        (if ab then asyncBody env else syncBody env).1 ++
        (relIf env.allocAN (stpLen an) ++ relIf env.allocP (stpLen pj) ++
          relIf env.allocC (stpLen cj)),
       (if ab then asyncBody env else syncBody env).2) := by
  simp [execute, stringToPtrE_eq, h1, h2, h3]

lemma execute_eq_fail1 {T : Type} (ab : Bool) (env : HostEnv T)
    (an pj cj : String) (h1 : stpOk env.writeANFails an = false) :
    execute ab env an pj cj =
      (stpEvs env.allocAN an, .error .boundary) := by
  simp [execute, stringToPtrE_eq, h1]

lemma execute_eq_fail2 {T : Type} (ab : Bool) (env : HostEnv T)
    (an pj cj : String)
    (h1 : stpOk env.writeANFails an = true)
    (h2 : stpOk env.writePFails pj = false) :
    execute ab env an pj cj =
      (stpEvs env.allocAN an ++ stpEvs env.allocP pj ++
        relIf env.allocAN (stpLen an), .error .boundary) := by
  simp [execute, stringToPtrE_eq, h1, h2]

lemma execute_eq_fail3 {T : Type} (ab : Bool) (env : HostEnv T)
    (an pj cj : String)
    (h1 : stpOk env.writeANFails an = true)
    (h2 : stpOk env.writePFails pj = true)
    (h3 : stpOk env.writeCFails cj = false) :
    execute ab env an pj cj =
      (stpEvs env.allocAN an ++ stpEvs env.allocP pj ++ stpEvs env.allocC cj ++
        (relIf env.allocAN (stpLen an) ++ relIf env.allocP (stpLen pj)),
       .error .boundary) := by
  simp [execute, stringToPtrE_eq, h1, h2, h3]

lemma countDeallocPtr_execute {T : Type} (ab : Bool) (env : HostEnv T)
    (an pj cj : String) (p : Nat)
    (hr : p ≠ env.allocR) (hq : p ≠ env.respPtr) :
    countDeallocPtr (execute ab env an pj cj).1 p =
      (if stpOk env.writeANFails an = true ∧ 0 < env.allocAN ∧
          env.allocAN = p then 1 else 0) +
      (if stpOk env.writeANFails an = true ∧ stpOk env.writePFails pj = true ∧
          0 < env.allocP ∧ env.allocP = p then 1 else 0) +
      (if stpOk env.writeANFails an = true ∧ stpOk env.writePFails pj = true ∧
          stpOk env.writeCFails cj = true ∧ 0 < env.allocC ∧
          env.allocC = p then 1 else 0) := by
  cases h1 : stpOk env.writeANFails an
  · rw [execute_eq_fail1 ab env an pj cj h1]
    simp [h1]
  · cases h2 : stpOk env.writePFails pj
    · rw [execute_eq_fail2 ab env an pj cj h1 h2]
      simp [h1, h2, countDeallocPtr_relIf]
    · cases h3 : stpOk env.writeCFails cj
      · rw [execute_eq_fail3 ab env an pj cj h1 h2 h3]
        simp [h1, h2, h3, countDeallocPtr_relIf]
      · rw [execute_eq_ok ab env an pj cj h1 h2 h3]
        simp [h1, h2, h3, countDeallocPtr_relIf,
          countDeallocPtr_bodyIf ab env p hr hq]
        split_ifs <;> omega

end Exec

/-! ## Claims about `execute` -/

/-- C1: in the CooperativeSuspend (Asyncify) regime, one logical invocation
of `execute` issues the host blocking-call primitive exactly once: on an
entry where the substrate reports state Rewinding (value 2), `execute` calls
`asyncify_stop_rewind` and does not re-issue `__host.call`; on any other
entry it issues `__host.call`.  For a Normal-then-Rewinding pair of entries
to the same logical call, `__host.call` is observed exactly once. -/
theorem coop_suspend_hostcall_once {T : Type} (e1 e2 : Exec.HostEnv T)
    (an pj cj : String)
    (h1 : e1.state2 = false) (h2 : e2.state2 = true)
    (hw1 : e1.writeANFails = false) (hw2 : e1.writePFails = false)
    (hw3 : e1.writeCFails = false)
    (hv1 : e2.writeANFails = false) (hv2 : e2.writePFails = false)
    (hv3 : e2.writeCFails = false) :
    Exec.countHostCalls (Exec.execute true e1 an pj cj).1 = 1 ∧
    Exec.countHostCalls (Exec.execute true e2 an pj cj).1 = 0 ∧
    Exec.Ev.stopRewind ∈ (Exec.execute true e2 an pj cj).1 ∧
    Exec.countHostCalls ((Exec.execute true e1 an pj cj).1 ++
      (Exec.execute true e2 an pj cj).1) = 1 := by
  have t1 := Exec.execute_eq_ok true e1 an pj cj
    (by rw [hw1, Exec.stpOk_false]) (by rw [hw2, Exec.stpOk_false])
    (by rw [hw3, Exec.stpOk_false])
  have t2 := Exec.execute_eq_ok true e2 an pj cj
    (by rw [hv1, Exec.stpOk_false]) (by rw [hv2, Exec.stpOk_false])
    (by rw [hv3, Exec.stpOk_false])
  refine ⟨?_, ?_, ?_, ?_⟩
  · rw [t1]
    simp [Exec.countHostCalls_asyncBody, h1]
  · rw [t2]
    simp [Exec.countHostCalls_asyncBody, h2]
  · rw [t2]
    have hm := Exec.stopRewind_mem_asyncBody e2 h2
    simp [hm]
  · rw [Exec.countHostCalls_append, t1, t2]
    simp [Exec.countHostCalls_asyncBody, h1, h2]

/-- Concrete host environment for the Normal entry of the C1 witness. -/
def envCoop1 : Exec.HostEnv Nat :=
  ⟨1, false, 2, false, 3, false, false, 0, false, 0, false, false, "",
   fun _ => none, false, 4, 5⟩

/-- Concrete host environment for the Rewinding entry of the C1 witness. -/
def envCoop2 : Exec.HostEnv Nat :=
  ⟨1, false, 2, false, 3, false, false, 0, false, 0, false, false, "",
   fun _ => none, true, 4, 5⟩

/-- Witness for C1 at a concrete input: a mock substrate reporting Normal on
the first entry and Rewinding on the second observes exactly one
`__host.call`. -/
theorem coop_suspend_hostcall_once_witness :
    Exec.countHostCalls (Exec.execute true envCoop1 "echo" "null" "ctx").1 = 1 ∧
    Exec.countHostCalls (Exec.execute true envCoop2 "echo" "null" "ctx").1 = 0 ∧
    Exec.Ev.stopRewind ∈ (Exec.execute true envCoop2 "echo" "null" "ctx").1 ∧
    Exec.countHostCalls ((Exec.execute true envCoop1 "echo" "null" "ctx").1 ++
      (Exec.execute true envCoop2 "echo" "null" "ctx").1) = 1 :=
  coop_suspend_hostcall_once envCoop1 envCoop2 "echo" "null" "ctx"
    rfl rfl rfl rfl rfl rfl rfl rfl

/-- C3: in the Synchronous regime, when the host reports a result size of
zero, `execute` returns the failure response with message
"Host returned an empty result." and does not allocate a result buffer (the
only allocations in the trace are the three parameter buffers). -/
theorem sync_empty_result {T : Type} (env : Exec.HostEnv T)
    (an pj cj : String)
    (hw1 : env.writeANFails = false) (hw2 : env.writePFails = false)
    (hw3 : env.writeCFails = false)
    (hc : env.callFails = false) (hs : env.sizeFails = false)
    (hz : env.resultSize = 0) :
    (Exec.execute false env an pj cj).2 =
      Except.ok ⟨false, none, some ⟨"Host returned an empty result."⟩⟩ ∧
    Exec.countAllocs (Exec.execute false env an pj cj).1 = 3 := by
  have t := Exec.execute_eq_ok false env an pj cj
    (by rw [hw1, Exec.stpOk_false]) (by rw [hw2, Exec.stpOk_false])
    (by rw [hw3, Exec.stpOk_false])
  constructor
  · rw [t]
    simp [Exec.syncBody, hc, hs, hz]
  · rw [t]
    simp [Exec.syncBody, hc, hs, hz, Exec.isAlloc]

/-- Concrete host environment for the C3 witness: the host reports result
size zero on the synchronous path. -/
def envSyncEmpty : Exec.HostEnv Nat :=
  ⟨1, false, 2, false, 3, false, false, 0, false, 0, false, false, "",
   fun _ => none, false, 0, 0⟩

/-- Witness for C3 at a concrete input. -/
theorem sync_empty_result_witness :
    (Exec.execute false envSyncEmpty "echo" "null" "ctx").2 =
      Except.ok ⟨false, none, some ⟨"Host returned an empty result."⟩⟩ ∧
    Exec.countAllocs (Exec.execute false envSyncEmpty "echo" "null" "ctx").1 = 3 :=
  sync_empty_result envSyncEmpty "echo" "null" "ctx" rfl rfl rfl rfl rfl rfl

/-- C2: for every call to `execute` (either build), each of the three
parameter buffers (action name, params, context) that was successfully
allocated and recorded is released exactly once, on every exit path —
normal return, early error return, and when the body throws.  The buffer
offsets are assumed pairwise distinct and distinct from the result/response
buffer offsets (the arena never hands out the same live offset twice), and
positive (a recorded pointer is released only under the source's
`ptr > 0` guard). -/
theorem exec_params_released_once {T : Type} (ab : Bool)
    (env : Exec.HostEnv T) (an pj cj : String)
    (hAN : 0 < env.allocAN) (hP : 0 < env.allocP) (hC : 0 < env.allocC)
    (hd1 : env.allocAN ≠ env.allocP) (hd2 : env.allocAN ≠ env.allocC)
    (hd3 : env.allocP ≠ env.allocC)
    (hr1 : env.allocAN ≠ env.allocR) (hr2 : env.allocP ≠ env.allocR)
    (hr3 : env.allocC ≠ env.allocR)
    (hq1 : env.allocAN ≠ env.respPtr) (hq2 : env.allocP ≠ env.respPtr)
    (hq3 : env.allocC ≠ env.respPtr) :
    Exec.countDeallocPtr (Exec.execute ab env an pj cj).1 env.allocAN =
      (if Exec.stpOk env.writeANFails an = true then 1 else 0) ∧
    Exec.countDeallocPtr (Exec.execute ab env an pj cj).1 env.allocP =
      (if Exec.stpOk env.writeANFails an = true ∧
          Exec.stpOk env.writePFails pj = true then 1 else 0) ∧
    Exec.countDeallocPtr (Exec.execute ab env an pj cj).1 env.allocC =
      (if Exec.stpOk env.writeANFails an = true ∧
          Exec.stpOk env.writePFails pj = true ∧
          Exec.stpOk env.writeCFails cj = true then 1 else 0) := by
  refine ⟨?_, ?_, ?_⟩
  · rw [Exec.countDeallocPtr_execute ab env an pj cj env.allocAN hr1 hq1]
    simp [hAN, Ne.symm hd1, Ne.symm hd2]
  · rw [Exec.countDeallocPtr_execute ab env an pj cj env.allocP hr2 hq2]
    simp [hP, hd1, Ne.symm hd3]
  · rw [Exec.countDeallocPtr_execute ab env an pj cj env.allocC hr3 hq3]
    simp [hC, hd2, hd3]

/-- Concrete host environment for the C2 witness: distinct positive buffer
offsets, a successful synchronous round trip. -/
def envRelease : Exec.HostEnv Nat :=
  ⟨1, false, 2, false, 3, false, false, 7, false, 4, false, false, "resp",
   fun _ => some ⟨true, some 0, none⟩, false, 5, 6⟩

/-- Witness for C2 at a concrete input: each parameter buffer is released
exactly once. -/
theorem exec_params_released_once_witness :
    Exec.countDeallocPtr (Exec.execute false envRelease "echo" "null" "ctx").1 1 = 1 ∧
    Exec.countDeallocPtr (Exec.execute false envRelease "echo" "null" "ctx").1 2 = 1 ∧
    Exec.countDeallocPtr (Exec.execute false envRelease "echo" "null" "ctx").1 3 = 1 := by
  have h := exec_params_released_once false envRelease "echo" "null" "ctx"
    (by decide) (by decide) (by decide) (by decide) (by decide) (by decide)
    (by decide) (by decide) (by decide) (by decide) (by decide) (by decide)
  simpa using h

/-- C9: in `execute`, a buffer is passed to `deallocate` exactly when its
recorded pointer is strictly greater than zero: `deallocate` is never
invoked with pointer 0 (so an allocation whose returned offset is 0 is
never released), and conversely every recorded parameter buffer whose
offset is positive is released. -/
theorem exec_dealloc_iff_positive {T : Type} (ab : Bool)
    (env : Exec.HostEnv T) (an pj cj : String) :
    (∀ p l, Exec.Ev.dealloc p l ∈ (Exec.execute ab env an pj cj).1 → 0 < p) ∧
    (Exec.stpOk env.writeANFails an = true → 0 < env.allocAN →
      Exec.Ev.dealloc env.allocAN (Exec.stpLen an) ∈
        (Exec.execute ab env an pj cj).1) ∧
    (Exec.stpOk env.writeANFails an = true →
      Exec.stpOk env.writePFails pj = true → 0 < env.allocP →
      Exec.Ev.dealloc env.allocP (Exec.stpLen pj) ∈
        (Exec.execute ab env an pj cj).1) ∧
    (Exec.stpOk env.writeANFails an = true →
      Exec.stpOk env.writePFails pj = true →
      Exec.stpOk env.writeCFails cj = true → 0 < env.allocC →
      Exec.Ev.dealloc env.allocC (Exec.stpLen cj) ∈
        (Exec.execute ab env an pj cj).1) := by
  refine ⟨?_, ?_, ?_, ?_⟩
  · intro p l hm
    cases h1 : Exec.stpOk env.writeANFails an
    · rw [Exec.execute_eq_fail1 ab env an pj cj h1] at hm
      simp at hm
      exact absurd hm Exec.dealloc_not_mem_stpEvs
    · cases h2 : Exec.stpOk env.writePFails pj
      · rw [Exec.execute_eq_fail2 ab env an pj cj h1 h2] at hm
        simp only [List.mem_append] at hm
        rcases hm with (hm | hm) | hm
        · exact absurd hm Exec.dealloc_not_mem_stpEvs
        · exact absurd hm Exec.dealloc_not_mem_stpEvs
        · exact Exec.dealloc_mem_relIf hm
      · cases h3 : Exec.stpOk env.writeCFails cj
        · rw [Exec.execute_eq_fail3 ab env an pj cj h1 h2 h3] at hm
          simp only [List.mem_append] at hm
          rcases hm with ((hm | hm) | hm) | hm | hm
          · exact absurd hm Exec.dealloc_not_mem_stpEvs
          · exact absurd hm Exec.dealloc_not_mem_stpEvs
          · exact absurd hm Exec.dealloc_not_mem_stpEvs
          · exact Exec.dealloc_mem_relIf hm
          · exact Exec.dealloc_mem_relIf hm
        · rw [Exec.execute_eq_ok ab env an pj cj h1 h2 h3] at hm
          simp only [List.mem_append] at hm
          rcases hm with (((hm | hm) | hm) | hm) | (hm | hm) | hm
          · exact absurd hm Exec.dealloc_not_mem_stpEvs
          · exact absurd hm Exec.dealloc_not_mem_stpEvs
          · exact absurd hm Exec.dealloc_not_mem_stpEvs
          · exact Exec.dealloc_mem_bodyIf hm
          · exact Exec.dealloc_mem_relIf hm
          · exact Exec.dealloc_mem_relIf hm
          · exact Exec.dealloc_mem_relIf hm
  · intro h1 hpos
    cases h2 : Exec.stpOk env.writePFails pj
    · rw [Exec.execute_eq_fail2 ab env an pj cj h1 h2]
      simp [Exec.relIf, hpos]
    · cases h3 : Exec.stpOk env.writeCFails cj
      · rw [Exec.execute_eq_fail3 ab env an pj cj h1 h2 h3]
        simp [Exec.relIf, hpos]
      · rw [Exec.execute_eq_ok ab env an pj cj h1 h2 h3]
        simp [Exec.relIf, hpos]
  · intro h1 h2 hpos
    cases h3 : Exec.stpOk env.writeCFails cj
    · rw [Exec.execute_eq_fail3 ab env an pj cj h1 h2 h3]
      simp [Exec.relIf, hpos]
    · rw [Exec.execute_eq_ok ab env an pj cj h1 h2 h3]
      simp [Exec.relIf, hpos]
  · intro h1 h2 h3 hpos
    rw [Exec.execute_eq_ok ab env an pj cj h1 h2 h3]
    simp [Exec.relIf, hpos]

/-- Witness for C9 at a concrete input: the recorded positive parameter
buffers of `envRelease` are released. -/
theorem exec_dealloc_iff_positive_witness :
    Exec.Ev.dealloc 1 (Exec.stpLen "echo") ∈
      (Exec.execute false envRelease "echo" "null" "ctx").1 ∧
    Exec.Ev.dealloc 3 (Exec.stpLen "ctx") ∈
      (Exec.execute false envRelease "echo" "null" "ctx").1 :=
  ⟨(exec_dealloc_iff_positive false envRelease "echo" "null" "ctx").2.1
      (by decide) (by decide),
   (exec_dealloc_iff_positive false envRelease "echo" "null" "ctx").2.2.2
      (by decide) (by decide) (by decide) (by decide)⟩

/-! ## Claims about the delegation channel -/

/-- C5 counterexample: when a slot already exists at the well-known
process-wide location (here a slot holding a placed result `7`), installing
the channel slot does not raise any error — it succeeds and silently
replaces the occupied slot with a fresh empty one, and an entry-point run
started from the occupied state completes normally, exactly as from the
empty state. -/
theorem chan_create_overwrites_silently :
    Chan.createChannel (⟨some (some (Except.ok 7))⟩ : Chan.GlobalSt Nat) =
      Except.ok ⟨some none⟩ ∧
    (Chan.entryPoint (⟨some (some (Except.ok 7))⟩ : Chan.GlobalSt Nat)
      (Chan.UserRun.completes (some (Except.ok 3)))).outcome =
      Chan.RunOutcome.value (some 3) :=
  ⟨rfl, rfl⟩

/-- C5 (amended): creating the delegation channel slot never fails — the
generated entry point unconditionally installs a fresh empty slot at the
well-known process-wide location, silently overwriting any slot that
already exists there (no error is raised on nesting). -/
theorem chan_create_always_succeeds {T : Type} (g : Chan.GlobalSt T) :
    Chan.createChannel g = Except.ok ⟨some none⟩ :=
  rfl

/-- C6 counterexample: when the delegated program runs to completion without
ever placing a pending result into the slot, the entry point does not
produce a `HandlerNotInvoked` error value — its outcome is the plain value
`undefined` (`none`), accompanied only by a `console.warn` line; by
contrast, a handler-thrown error does produce an error outcome, so the
never-placed case is not reported as an error at all. -/
theorem chan_take_never_placed_not_error :
    Chan.entryPoint (⟨none⟩ : Chan.GlobalSt Nat) (Chan.UserRun.completes none) =
      ⟨Chan.RunOutcome.value none,
       ["SDK build warning: simple.Handle was not called by the user application."],
       ⟨none⟩⟩ ∧
    (Chan.entryPoint (⟨none⟩ : Chan.GlobalSt Nat)
      (Chan.UserRun.completes (some (Except.error "boom")))).outcome =
      Chan.RunOutcome.error "boom" :=
  ⟨rfl, rfl⟩

/-- C6 (amended): when the delegated program runs to completion without ever
placing a pending result into the slot, the entry point does not hang: it
emits the distinct warning line about `simple.Handle` not having been
called and completes with the value `undefined` (`none`) — an outcome
distinct from a handler-thrown error, which instead surfaces as an error
outcome carrying the handler's message. -/
theorem chan_take_never_placed_warns {T : Type} (g : Chan.GlobalSt T)
    (m : String) :
    Chan.entryPoint g (Chan.UserRun.completes none) =
      ⟨Chan.RunOutcome.value none,
       ["SDK build warning: simple.Handle was not called by the user application."],
       ⟨none⟩⟩ ∧
    (Chan.entryPoint g (Chan.UserRun.completes (some (Except.error m)))).outcome =
      Chan.RunOutcome.error m :=
  ⟨rfl, rfl⟩

/-! ## Claim about the entry-point driver -/

/-- C10: whenever the entry-point driver reports a failure and no context is
available — the input payload was absent, or it failed to parse before a
context was extracted — the fire-and-forget `__done__` completion signal is
still sent, carrying the synthesized fallback context whose
`logic.execution_id` is the string "unknown". -/
theorem driver_no_context_failure_signals_done {T : Type}
    (parse : String → Except String Driver.SimpleRequest)
    (run : Driver.SimpleRequest → Except String T) (inputText msg : String) :
    Driver.handle "" parse run =
      [⟨"__done__",
        ⟨none, ["no input payload provided by the host environment"], false⟩,
        Driver.fallbackContext⟩] ∧
    (inputText ≠ "" → parse inputText = .error msg →
      Driver.handle inputText parse run =
        [⟨"__done__", ⟨none, [msg], false⟩, Driver.fallbackContext⟩]) ∧
    Driver.fallbackContext.logic = some ⟨none, some "unknown", none, none⟩ := by
  refine ⟨rfl, ?_, rfl⟩
  intro hne hp
  simp [Driver.handle, hne, hp, Driver.returnError]

/-- Witness for C10 at a concrete input: a payload that fails to parse
produces the `__done__` signal with the fallback context. -/
theorem driver_no_context_failure_signals_done_witness :
    Driver.handle "x" (fun _ => Except.error "bad")
        (fun _ => Except.ok (0 : Nat)) =
      [⟨"__done__", ⟨none, ["bad"], false⟩, Driver.fallbackContext⟩] :=
  (driver_no_context_failure_signals_done (fun _ => Except.error "bad")
    (fun _ => Except.ok (0 : Nat)) "x" "bad").2.1 (by decide) rfl

end SimpleSDK
